import Mathlib

/-!
A shallow embedding of the dual-track trading engine (trading-engine module,
class TradingEngine: the breakout-FSM variant).  Prices and PnL figures are
modelled as rationals, epoch-millisecond timestamps as naturals, and the
nullable JavaScript fields as Option values.  JavaScript truthiness tests on
numbers (`x || y`, `if (x)`) are modelled explicitly: a number is falsy
exactly when it is 0 (timestamps and prices in this engine are never NaN).
Mutation of `this` is modelled by explicit state passing; the outbound
order-execution calls (sendLiveSignal) are modelled as emitted events.
Display-only fields (id strings, formatted IST time strings, the fsmBySymbol
display map, socket broadcasting) are omitted: no state transition reads
them.
-/

namespace Server

/-- Breakout FSM states of a position track (field fsmState). -/
inductive FsmState
  | NOPOSITION
  | NOPOSITION_SIGNAL
  | BUYPOSITION
  | SELLPOSITION
  | NOPOSITION_BLOCKED
  deriving DecidableEq, Repr

/-- The two independent position tracks. -/
inductive Direction
  | LONG
  | SHORT
  deriving DecidableEq, Repr

/-- Live sub-track position state (liveState.state). -/
inductive LivePos
  | NO_POSITION
  | POSITION
  deriving DecidableEq, Repr

/-- Kind of a live ledger row / outbound execution call. -/
inductive LiveKind
  | ENTRY
  | EXIT
  deriving DecidableEq, Repr

/-- An outbound order-execution call (sendLiveSignal); the reason is the
argument closeLiveTrade was invoked with (ENTRY carries none). -/
structure LiveEvent where
  kind : LiveKind
  symbol : String
  refPrice : ℚ
  direction : Direction
  reason : Option String
  deriving DecidableEq, Repr

/-- An open paper trade (openPaperTrade). -/
structure PaperTrade where
  symbol : String
  direction : Direction
  entryPrice : ℚ
  currentPrice : ℚ
  quantity : ℚ
  unrealizedPnl : ℚ
  enteredAt : ℕ
  deriving DecidableEq, Repr

/-- A closed paper trade as stored in paperTrades history by closePaperTrade
(the spread of the open trade plus exit bookkeeping). -/
structure ClosedPaperTrade where
  symbol : String
  direction : Direction
  entryPrice : ℚ
  currentPrice : ℚ
  quantity : ℚ
  unrealizedPnl : ℚ
  enteredAt : ℕ
  exitPrice : ℚ
  realizedPnl : ℚ
  reason : String
  closedAt : ℕ
  deriving DecidableEq, Repr

/-- A sample archived in peakPnlHistory at paper-trade close time. -/
structure PeakRecord where
  pnl : ℚ
  timestamp : ℕ
  deriving DecidableEq, Repr

/-- liveState.pendingPaperTrade, set when a paper trade opens. -/
structure PendingPaperTrade where
  entryPrice : ℚ
  quantity : ℚ
  lot : ℚ
  openedAt : ℕ
  deriving DecidableEq, Repr

/-- liveState.openTrade as built by openLiveTrade. -/
structure LiveOpenTrade where
  symbol : String
  entryPrice : ℚ
  quantity : ℚ
  lot : ℚ
  deriving DecidableEq, Repr

/-- A row of the live trade ledger liveState.trades.  ENTRY rows carry no
exitPrice, realizedPnl or closedAt (null in the source). -/
structure LiveTradeRow where
  symbol : String
  action : LiveKind
  entryPrice : ℚ
  exitPrice : Option ℚ
  quantity : ℚ
  realizedPnl : Option ℚ
  cumulativePnl : ℚ
  closedAt : Option ℕ
  deriving DecidableEq, Repr

/-- The live sub-track (createLiveState shape plus the pendingPaperTrade
field that openPaperTrade adds). -/
structure LiveState where
  state : LivePos
  cumulativePnl : ℚ
  unrealizedPnl : ℚ
  blockedAtMs : Option ℕ
  openTrade : Option LiveOpenTrade
  pendingPaperTrade : Option PendingPaperTrade
  trades : List LiveTradeRow
  deriving DecidableEq, Repr

/-- A record of the per-direction signal ring (signals). -/
structure SignalRecord where
  intent : String
  stoppx : Option ℚ
  ltp : Option ℚ
  receivedAt : ℕ
  deriving DecidableEq, Repr

/-- One position track (this.longState / this.shortState). -/
structure TrackState where
  fsmState : FsmState
  threshold : Option ℚ
  paperTrade : Option PaperTrade
  paperTrades : List ClosedPaperTrade
  peakPnlHistory : List PeakRecord
  currentPeakPnl : Option ℚ
  liveState : LiveState
  signals : List SignalRecord
  lastSignalAtMs : Option ℕ
  lastBlockedAtMs : Option ℕ
  deriving DecidableEq, Repr

/-- The inbound normalized webhook signal shape. -/
structure Signal where
  symbol : String
  intent : Option String
  stoppx : Option ℚ
  side : Option String
  deriving DecidableEq, Repr

/-- Engine-wide state (the TradingEngine instance fields the transition
logic reads and writes). -/
structure EngineState where
  longState : TrackState
  shortState : TrackState
  ltpBySymbol : List (String × ℚ)
  lastResetDate : Option String
  lastResetTimestamp : ℕ
  deriving DecidableEq, Repr

/-- OPEN_THRESHOLD: activate live when profit strictly above this. -/
def OPEN_THRESHOLD : ℚ := 0

/-- CLOSE_THRESHOLD: protective close when profit at or below this. -/
def CLOSE_THRESHOLD : ℚ := 0

/-- POSITION_SIZE: dollar notional used to derive paper quantity. -/
def POSITION_SIZE : ℚ := 10

/-- JavaScript truthiness of a nullable timestamp: null and 0 are falsy. -/
def truthyMs : Option ℕ → Bool
  | none => false
  | some n => n != 0

/-- JavaScript `a || b` on nullable numbers: a is used when present and
nonzero, otherwise b. -/
def jsOrQ (a b : Option ℚ) : Option ℚ :=
  match a with
  | some q => if q = 0 then b else some q
  | none => b

/-- JavaScript `a || b` where b is a plain number. -/
def jsOrD (a : Option ℚ) (b : ℚ) : ℚ :=
  match a with
  | some q => if q = 0 then b else q
  | none => b

/-- JavaScript `a || b` on nullable naturals. -/
def jsOrNat (a : Option ℕ) (b : ℕ) : ℕ :=
  match a with
  | some n => if n = 0 then b else n
  | none => b

/-- isFirstSecondNextMinute: the tick lies in a strictly later calendar
minute than the anchor (Math.floor(ms / 60000) comparison). -/
def isFirstSecondNextMinute (anchorAtMs tickAtMs : ℕ) : Bool :=
  decide (anchorAtMs / 60000 < tickAtMs / 60000)

/-- symbol.toUpperCase() for the ASCII symbol names this engine sees. -/
def strUpper (s : String) : String :=
  ⟨s.data.map Char.toUpper⟩

/-- Whether the needle is an initial run of the haystack characters. -/
def strHasInit : List Char → List Char → Bool
  | _, [] => true
  | [], _ :: _ => false
  | c :: cs, d :: ds => c == d && strHasInit cs ds

/-- Whether the needle occurs somewhere in the haystack characters. -/
def strFind : List Char → List Char → Bool
  | [], needle => needle.isEmpty
  | c :: cs, needle => strHasInit (c :: cs) needle || strFind cs needle

/-- `hay.includes(needle)` for the fixed needles used by the engine. -/
def strIncludes (hay needle : String) : Bool :=
  strFind hay.data needle.data

/-- createLiveState: the fresh live sub-track. -/
def createLiveState : LiveState :=
  { state := .NO_POSITION
    cumulativePnl := 0
    unrealizedPnl := 0
    blockedAtMs := none
    openTrade := none
    pendingPaperTrade := none
    trades := [] }

/-- A fresh position track as built in the constructor. -/
def initialTrack : TrackState :=
  { fsmState := .NOPOSITION
    threshold := none
    paperTrade := none
    paperTrades := []
    peakPnlHistory := []
    currentPeakPnl := none
    liveState := createLiveState
    signals := []
    lastSignalAtMs := none
    lastBlockedAtMs := none }

/-- The engine state right after the constructor field initialisers ran
(before loadState), with the construction-time clock. -/
def initialEngine (now : ℕ) : EngineState :=
  { longState := initialTrack
    shortState := initialTrack
    ltpBySymbol := []
    lastResetDate := none
    lastResetTimestamp := now }

/-- Map.get on the last-traded-price table. -/
def getLtp : List (String × ℚ) → String → Option ℚ
  | [], _ => none
  | (k, v) :: rest, s => if k = s then some v else getLtp rest s

/-- Map.set on the last-traded-price table (last write wins per symbol). -/
def setLtp : List (String × ℚ) → String → ℚ → List (String × ℚ)
  | [], s, p => [(s, p)]
  | (k, v) :: rest, s, p => if k = s then (s, p) :: rest else (k, v) :: setLtp rest s p

/-- closeLiveTrade: realize PnL of the open live trade at exitPrice, push an
EXIT row (ring bounded at 50), clear the open trade, and send the outbound
EXIT call.  Touches only the live sub-track. -/
def closeLiveTrade (dir : Direction) (ls : LiveState) (exitPrice : ℚ) (reason : String)
    (now : ℕ) : LiveState × List LiveEvent :=
  match ls.openTrade with
  | none => (ls, [])
  | some ot =>
    let realizedPnl :=
      match dir with
      | .LONG => (exitPrice - ot.entryPrice) * ot.quantity * ot.lot
      | .SHORT => (ot.entryPrice - exitPrice) * ot.quantity * ot.lot
    let cum := ls.cumulativePnl + realizedPnl
    let exitRow : LiveTradeRow :=
      { symbol := ot.symbol
        action := .EXIT
        entryPrice := ot.entryPrice
        exitPrice := some exitPrice
        quantity := ot.quantity
        realizedPnl := some realizedPnl
        cumulativePnl := cum
        closedAt := some now }
    ({ ls with
        cumulativePnl := cum
        trades := (exitRow :: ls.trades).take 50
        openTrade := none
        state := .NO_POSITION
        unrealizedPnl := 0 },
      [{ kind := .EXIT, symbol := ot.symbol, refPrice := exitPrice, direction := dir,
         reason := some reason }])

/-- openLiveTrade: open a live trade from the pending paper trade reference
at entryPrice, push an ENTRY row, and send the outbound ENTRY call. -/
def openLiveTrade (dir : Direction) (ls : LiveState) (entryPrice : ℚ) (symbol : String) :
    LiveState × List LiveEvent :=
  match ls.pendingPaperTrade with
  | none => (ls, [])
  | some pending =>
    let row : LiveTradeRow :=
      { symbol := symbol
        action := .ENTRY
        entryPrice := entryPrice
        exitPrice := none
        quantity := pending.quantity
        realizedPnl := none
        cumulativePnl := ls.cumulativePnl
        closedAt := none }
    ({ ls with
        openTrade := some { symbol := symbol, entryPrice := entryPrice,
                            quantity := pending.quantity, lot := pending.lot }
        state := .POSITION
        trades := (row :: ls.trades).take 50 },
      [{ kind := .ENTRY, symbol := symbol, refPrice := entryPrice, direction := dir,
         reason := none }])

/-- The first block of checkLiveTrade: clear the live lockout once the
minute boundary has been crossed (a JavaScript-falsy anchor of 0 never
clears). -/
def clearExpiredLiveBlock (ls : LiveState) (now : ℕ) : LiveState :=
  match ls.blockedAtMs with
  | some b =>
    if b ≠ 0 ∧ isFirstSecondNextMinute b now then { ls with blockedAtMs := none } else ls
  | none => ls

/-- The protective-close block of checkLiveTrade: close the live trade at
the current price when totalPnl is at or below CLOSE_THRESHOLD, and start a
lockout at the tick time. -/
def protectiveCloseStep (dir : Direction) (ls : LiveState) (totalPnl currentPrice : ℚ)
    (now : ℕ) : LiveState × List LiveEvent :=
  if ls.state = .POSITION ∧ ls.openTrade.isSome = true ∧ totalPnl ≤ CLOSE_THRESHOLD then
    let step := closeLiveTrade dir ls currentPrice "Protective" now
    ({ step.1 with blockedAtMs := some now }, step.2)
  else (ls, [])

/-- The activation block of checkLiveTrade: open a live trade at the
current price when flat, a pending paper trade exists, no lockout is active
and totalPnl is above OPEN_THRESHOLD. -/
def activateLiveStep (dir : Direction) (ls : LiveState) (totalPnl currentPrice : ℚ)
    (symbol : String) : LiveState × List LiveEvent :=
  if ls.state = .NO_POSITION ∧ ls.pendingPaperTrade.isSome = true ∧
      truthyMs ls.blockedAtMs = false ∧ OPEN_THRESHOLD < totalPnl then
    openLiveTrade dir ls currentPrice symbol
  else (ls, [])

/-- The final block of checkLiveTrade: recompute the live unrealized PnL of
the open trade, scaled by quantity and lot. -/
def refreshLiveUnrealized (dir : Direction) (ls : LiveState) (currentPrice : ℚ) : LiveState :=
  match ls.openTrade with
  | some ot =>
    let u :=
      match dir with
      | .LONG => (currentPrice - ot.entryPrice) * ot.quantity * ot.lot
      | .SHORT => (ot.entryPrice - currentPrice) * ot.quantity * ot.lot
    { ls with unrealizedPnl := u }
  | none => ls

/-- checkLiveTrade: the four blocks of the source in order: clear an expired
live lockout, protectively close, activate, recompute unrealized PnL. -/
def checkLiveTrade (dir : Direction) (ls : LiveState) (totalPnl currentPrice : ℚ)
    (symbol : String) (now : ℕ) : LiveState × List LiveEvent :=
  let ls1 := clearExpiredLiveBlock ls now
  let step2 := protectiveCloseStep dir ls1 totalPnl currentPrice now
  let step3 := activateLiveStep dir step2.1 totalPnl currentPrice symbol
  (refreshLiveUnrealized dir step3.1 currentPrice, step2.2 ++ step3.2)

/-- openPaperTrade: open a paper trade at entryPrice (skipped when one is
already open), with quantity POSITION_SIZE / entryPrice, and record the
pending reference for live activation. -/
def openPaperTrade (dir : Direction) (st : TrackState) (symbol : String) (entryPrice : ℚ)
    (now : ℕ) : TrackState :=
  match st.paperTrade with
  | some _ => st
  | none =>
    let trade : PaperTrade :=
      { symbol := symbol
        direction := dir
        entryPrice := entryPrice
        currentPrice := entryPrice
        quantity := POSITION_SIZE / entryPrice
        unrealizedPnl := 0
        enteredAt := now }
    { st with
        paperTrade := some trade
        liveState := { st.liveState with
          pendingPaperTrade := some { entryPrice := entryPrice, quantity := trade.quantity,
                                      lot := 1, openedAt := now } } }

/-- closePaperTrade: realize the paper PnL into liveState.cumulativePnl,
archive the trade (and a positive peak, when one was recorded), force-close
any open live trade at the same price, then clear the open trade, the
pending reference and the current peak. -/
def closePaperTrade (dir : Direction) (st : TrackState) (exitPrice : ℚ) (reason : String)
    (now : ℕ) : TrackState × List LiveEvent :=
  match st.paperTrade with
  | none => (st, [])
  | some trade =>
    let realizedPnl :=
      match dir with
      | .LONG => (exitPrice - trade.entryPrice) * trade.quantity
      | .SHORT => (trade.entryPrice - exitPrice) * trade.quantity
    let ls1 := { st.liveState with cumulativePnl := st.liveState.cumulativePnl + realizedPnl }
    let closedRec : ClosedPaperTrade :=
      { symbol := trade.symbol
        direction := trade.direction
        entryPrice := trade.entryPrice
        currentPrice := trade.currentPrice
        quantity := trade.quantity
        unrealizedPnl := trade.unrealizedPnl
        enteredAt := trade.enteredAt
        exitPrice := exitPrice
        realizedPnl := realizedPnl
        reason := reason
        closedAt := now }
    let peaks :=
      match st.currentPeakPnl with
      | some p =>
        if 0 < p then ({ pnl := p, timestamp := now } : PeakRecord) :: st.peakPnlHistory
        else st.peakPnlHistory
      | none => st.peakPnlHistory
    let step : LiveState × List LiveEvent :=
      if ls1.openTrade.isSome = true then closeLiveTrade dir ls1 exitPrice reason now
      else (ls1, [])
    ({ st with
        paperTrade := none
        paperTrades := closedRec :: st.paperTrades
        peakPnlHistory := peaks
        currentPeakPnl := none
        liveState := { step.1 with pendingPaperTrade := none } },
      step.2)

/-- The restart safety check at the head of processLongTickTransition: a
claimed LONG position with no backing paper trade is reset. -/
def longSafety (st : TrackState) : TrackState :=
  if st.fsmState = .BUYPOSITION ∧ st.paperTrade = none then
    { st with fsmState := .NOPOSITION, threshold := none, currentPeakPnl := none }
  else st

/-- The restart safety check of processShortTickTransition. -/
def shortSafety (st : TrackState) : TrackState :=
  if st.fsmState = .SELLPOSITION ∧ st.paperTrade = none then
    { st with fsmState := .NOPOSITION, threshold := none, currentPeakPnl := none }
  else st

/-- The peak-PnL update on a tick: raised to the current unrealized PnL when
that is positive and exceeds the recorded peak (null counts as no peak). -/
def updatedPeak (cur : Option ℚ) (pnl : ℚ) : Option ℚ :=
  match cur with
  | none => if 0 < pnl then some pnl else none
  | some p => if 0 < pnl ∧ p < pnl then some pnl else some p

/-- The open-position update block of processLongTickTransition: refresh the
paper trade price and unrealized PnL, track the peak, and run the live
promotion/demotion check with totalPnl = cumulative live PnL + unrealized
paper PnL. -/
def longPaperUpdate (st : TrackState) (symbol : String) (ltp : ℚ) (now : ℕ) :
    TrackState × List LiveEvent :=
  match st.paperTrade with
  | some t =>
    if t.symbol = symbol then
      let pnl := (ltp - t.entryPrice) * t.quantity
      let st1 := { st with
        paperTrade := some { t with currentPrice := ltp, unrealizedPnl := pnl }
        currentPeakPnl := updatedPeak st.currentPeakPnl pnl }
      let totalPnl := st1.liveState.cumulativePnl + pnl
      let step := checkLiveTrade .LONG st1.liveState totalPnl ltp symbol now
      ({ st1 with liveState := step.1 }, step.2)
    else (st, [])
  | none => (st, [])

/-- The open-position update block of processShortTickTransition (profit
when the price goes down). -/
def shortPaperUpdate (st : TrackState) (symbol : String) (ltp : ℚ) (now : ℕ) :
    TrackState × List LiveEvent :=
  match st.paperTrade with
  | some t =>
    if t.symbol = symbol then
      let pnl := (t.entryPrice - ltp) * t.quantity
      let st1 := { st with
        paperTrade := some { t with currentPrice := ltp, unrealizedPnl := pnl }
        currentPeakPnl := updatedPeak st.currentPeakPnl pnl }
      let totalPnl := st1.liveState.cumulativePnl + pnl
      let step := checkLiveTrade .SHORT st1.liveState totalPnl ltp symbol now
      ({ st1 with liveState := step.1 }, step.2)
    else (st, [])
  | none => (st, [])

/-- The FSM switch of processLongTickTransition, reached only with a set
threshold: enter above the threshold, stop out below it, and after a lockout
re-evaluate the entry condition once the minute boundary has been crossed. -/
def longFsmStep (st : TrackState) (θ : ℚ) (symbol : String) (ltp : ℚ) (now : ℕ) :
    TrackState × List LiveEvent :=
  match st.fsmState with
  | .NOPOSITION_SIGNAL =>
    if θ < ltp then
      (openPaperTrade .LONG { st with fsmState := .BUYPOSITION } symbol ltp now, [])
    else ({ st with fsmState := .NOPOSITION_BLOCKED, lastBlockedAtMs := some now }, [])
  | .BUYPOSITION =>
    if ltp < θ then
      let step := closePaperTrade .LONG st ltp "Stop Loss" now
      ({ step.1 with fsmState := .NOPOSITION_BLOCKED, lastBlockedAtMs := some now }, step.2)
    else (st, [])
  | .NOPOSITION_BLOCKED =>
    match st.lastBlockedAtMs with
    | some b =>
      if b ≠ 0 ∧ isFirstSecondNextMinute b now then
        if θ < ltp then
          (openPaperTrade .LONG { st with fsmState := .BUYPOSITION } symbol ltp now, [])
        else ({ st with lastBlockedAtMs := some now }, [])
      else (st, [])
    | none => (st, [])
  | _ => (st, [])

/-- The FSM switch of processShortTickTransition: enter below the threshold,
stop out above it. -/
def shortFsmStep (st : TrackState) (θ : ℚ) (symbol : String) (ltp : ℚ) (now : ℕ) :
    TrackState × List LiveEvent :=
  match st.fsmState with
  | .NOPOSITION_SIGNAL =>
    if ltp < θ then
      (openPaperTrade .SHORT { st with fsmState := .SELLPOSITION } symbol ltp now, [])
    else ({ st with fsmState := .NOPOSITION_BLOCKED, lastBlockedAtMs := some now }, [])
  | .SELLPOSITION =>
    if θ < ltp then
      let step := closePaperTrade .SHORT st ltp "Stop Loss" now
      ({ step.1 with fsmState := .NOPOSITION_BLOCKED, lastBlockedAtMs := some now }, step.2)
    else (st, [])
  | .NOPOSITION_BLOCKED =>
    match st.lastBlockedAtMs with
    | some b =>
      if b ≠ 0 ∧ isFirstSecondNextMinute b now then
        if ltp < θ then
          (openPaperTrade .SHORT { st with fsmState := .SELLPOSITION } symbol ltp now, [])
        else ({ st with lastBlockedAtMs := some now }, [])
      else (st, [])
    | none => (st, [])
  | _ => (st, [])

/-- processLongTickTransition: safety check, open-position update, then the
FSM switch (skipped entirely when no threshold is set). -/
def processLongTickTransition (st : TrackState) (symbol : String) (ltp : ℚ) (now : ℕ) :
    TrackState × List LiveEvent :=
  let st0 := longSafety st
  let step1 := longPaperUpdate st0 symbol ltp now
  match step1.1.threshold with
  | none => step1
  | some θ =>
    let step2 := longFsmStep step1.1 θ symbol ltp now
    (step2.1, step1.2 ++ step2.2)

/-- processShortTickTransition. -/
def processShortTickTransition (st : TrackState) (symbol : String) (ltp : ℚ) (now : ℕ) :
    TrackState × List LiveEvent :=
  let st0 := shortSafety st
  let step1 := shortPaperUpdate st0 symbol ltp now
  match step1.1.threshold with
  | none => step1
  | some θ =>
    let step2 := shortFsmStep step1.1 θ symbol ltp now
    (step2.1, step1.2 ++ step2.2)

/-- updateLtp: record the price in the table, then run both FSMs for BTC
symbols only. -/
def updateLtp (e : EngineState) (symbol : String) (price : ℚ) (now : ℕ) :
    EngineState × List LiveEvent :=
  let e1 := { e with ltpBySymbol := setLtp e.ltpBySymbol symbol price }
  if strIncludes (strUpper symbol) "BTC" = false then (e1, [])
  else
    let stepL := processLongTickTransition e1.longState symbol price now
    let stepS := processShortTickTransition e1.shortState symbol price now
    ({ e1 with longState := stepL.1, shortState := stepS.1 }, stepL.2 ++ stepS.2)

/-- Direction resolution of processWebhookSignal: side takes precedence over
intent. -/
def signalIsBuy (sig : Signal) : Bool :=
  sig.side == some "BUY" || (!(sig.side == some "SELL") && sig.intent == some "ENTRY")

/-- Direction resolution of processWebhookSignal, SELL side. -/
def signalIsSell (sig : Signal) : Bool :=
  sig.side == some "SELL" || (!(sig.side == some "BUY") && sig.intent == some "EXIT")

/-- processWebhookSignal: for a BTC signal, record it in the matching ring,
set the threshold (for LONG from stoppx falling back to LTP, for SHORT
always from LTP) and arm the track when it is idle or blocked. -/
def processWebhookSignal (e : EngineState) (sig : Signal) (now : ℕ) : EngineState :=
  if sig.symbol = "" then e
  else
    let normalized := strUpper sig.symbol
    if strIncludes normalized "BTC" = false then e
    else
      let ltp := getLtp e.ltpBySymbol normalized
      let isBuy := signalIsBuy sig
      let isSell := signalIsSell sig
      let sr : SignalRecord :=
        { intent := if isBuy then "BUY" else "SELL"
          stoppx := sig.stoppx
          ltp := ltp
          receivedAt := now }
      if isBuy then
        let L := e.longState
        let fsm1 :=
          if L.fsmState = .NOPOSITION ∨ L.fsmState = .NOPOSITION_BLOCKED then
            FsmState.NOPOSITION_SIGNAL
          else L.fsmState
        { e with longState := { L with
            signals := (sr :: L.signals).take 50
            threshold := jsOrQ sig.stoppx ltp
            lastSignalAtMs := some now
            fsmState := fsm1 } }
      else if isSell then
        let S := e.shortState
        let fsm1 :=
          if S.fsmState = .NOPOSITION ∨ S.fsmState = .NOPOSITION_BLOCKED then
            FsmState.NOPOSITION_SIGNAL
          else S.fsmState
        { e with shortState := { S with
            signals := (sr :: S.signals).take 50
            threshold := ltp
            lastSignalAtMs := some now
            fsmState := fsm1 } }
      else e

/-- The per-track portion of performDailyReset after open trades are closed:
keep histories, reset the active state, lockouts, signals and the live PnL
figures. -/
def resetTrack (st : TrackState) : TrackState :=
  { st with
      fsmState := .NOPOSITION
      threshold := none
      currentPeakPnl := none
      signals := []
      liveState := { st.liveState with
        state := .NO_POSITION
        cumulativePnl := 0
        unrealizedPnl := 0
        blockedAtMs := none
        openTrade := none
        pendingPaperTrade := none }
      lastSignalAtMs := none
      lastBlockedAtMs := none }

/-- performDailyReset: close any open paper trades at the latest known price
(falling back to the trade price), reset both tracks, and advance
lastResetTimestamp.  The delayed generateAutoSignals call runs later through
processWebhookSignal and is not part of this synchronous state change. -/
def performDailyReset (e : EngineState) (now : ℕ) : EngineState × List LiveEvent :=
  let stepL :=
    match e.longState.paperTrade with
    | some t =>
      closePaperTrade .LONG e.longState (jsOrD (getLtp e.ltpBySymbol t.symbol) t.currentPrice)
        "Daily Reset" now
    | none => (e.longState, [])
  let stepS :=
    match e.shortState.paperTrade with
    | some t =>
      closePaperTrade .SHORT e.shortState (jsOrD (getLtp e.ltpBySymbol t.symbol) t.currentPrice)
        "Daily Reset" now
    | none => (e.shortState, [])
  ({ e with
      longState := resetTrack stepL.1
      shortState := resetTrack stepS.1
      lastResetTimestamp := now },
    stepL.2 ++ stepS.2)

/-- checkDailyReset: fire performDailyReset once per calendar day inside the
05:30 IST one-minute window, guarded by lastResetDate.  The IST hour, minute
and date string derived from the wall clock are passed as parameters. -/
def checkDailyReset (e : EngineState) (istHours istMinutes : ℕ) (istDateStr : String)
    (now : ℕ) : EngineState × List LiveEvent :=
  if istHours = 5 ∧ 30 ≤ istMinutes ∧ istMinutes < 31 ∧ e.lastResetDate ≠ some istDateStr then
    let step := performDailyReset e now
    ({ step.1 with lastResetDate := some istDateStr }, step.2)
  else (e, [])

/-- The per-track shape written by saveState (the open paper trade and open
live trade are not persisted). -/
structure PersistedTrack where
  fsmState : FsmState
  threshold : Option ℚ
  paperTrades : List ClosedPaperTrade
  peakPnlHistory : List PeakRecord
  currentPeakPnl : Option ℚ
  signals : List SignalRecord
  liveStateTrades : List LiveTradeRow
  liveStateCumulativePnl : ℚ
  deriving DecidableEq, Repr

/-- The snapshot shape written by saveState; each section may be absent in a
hand-edited or partial file, matching the guards of loadState. -/
structure PersistedState where
  savedAt : ℕ
  lastResetDate : Option String
  lastResetTimestamp : Option ℕ
  long : Option PersistedTrack
  short : Option PersistedTrack
  deriving DecidableEq, Repr

/-- The per-track restore of loadState: histories, thresholds, signals and
the live trades ledger and cumulative PnL come from the file; the open paper
trade, the open live trade and the live position state keep their fresh
constructor values. -/
def loadTrack (init : TrackState) (pt : PersistedTrack) : TrackState :=
  { init with
      fsmState := pt.fsmState
      threshold := pt.threshold
      paperTrades := pt.paperTrades
      peakPnlHistory := pt.peakPnlHistory
      currentPeakPnl := pt.currentPeakPnl
      signals := pt.signals
      liveState := { init.liveState with
        trades := pt.liveStateTrades
        cumulativePnl := pt.liveStateCumulativePnl } }

/-- loadState: applied to the freshly constructed engine; a missing or
unreadable file leaves the engine fresh. -/
def loadState (init : EngineState) (file : Option PersistedState) (now : ℕ) : EngineState :=
  match file with
  | none => init
  | some ps =>
    let e1 := { init with
      lastResetDate := ps.lastResetDate
      lastResetTimestamp := jsOrNat ps.lastResetTimestamp now }
    let e2 :=
      match ps.long with
      | some pt => { e1 with longState := loadTrack e1.longState pt }
      | none => e1
    match ps.short with
    | some pt => { e2 with shortState := loadTrack e2.shortState pt }
    | none => e2

/-- The row filter of getCumLivePnl: EXIT rows with a realized PnL and a
truthy close timestamp strictly after the last reset. -/
def liveExitCounts (reset : ℕ) (t : LiveTradeRow) : Bool :=
  decide (t.action = .EXIT) && t.realizedPnl.isSome &&
    (match t.closedAt with
     | some c => c != 0 && decide (reset < c)
     | none => false)

/-- getCumLivePnl: sum of realized PnL over the live ledger rows counted by
liveExitCounts (the reduce of the source). -/
def getCumLivePnl (ls : LiveState) (lastResetTimestamp : ℕ) : ℚ :=
  ls.trades.foldl
    (fun sum t => if liveExitCounts lastResetTimestamp t then sum + t.realizedPnl.getD 0 else sum)
    0

/-- Modelled from the spec: the live cumulative PnL as §8 words it, namely
the sum of realizedPnl over exactly the EXIT rows whose closedAt is strictly
greater than lastResetTimestamp.  Used to compare getCumLivePnl against the
specification sentence. -/
def specCumLivePnl (ls : LiveState) (lastResetTimestamp : ℕ) : ℚ :=
  ((ls.trades.filter fun t =>
      decide (t.action = .EXIT) &&
        (match t.closedAt with
         | some c => decide (lastResetTimestamp < c)
         | none => false)).map
    fun t => t.realizedPnl.getD 0).sum

/-- The Live Sub-track invariant: an open trade is present exactly when the
live position state is POSITION. -/
def liveInv (ls : LiveState) : Prop :=
  ls.openTrade.isSome = true ↔ ls.state = .POSITION

/-- Every recorded current peak is strictly positive. -/
def peakInv (st : TrackState) : Prop :=
  ∀ p : ℚ, st.currentPeakPnl = some p → 0 < p

/-- Ordering on optional peaks: any recorded peak is still recorded and has
not decreased. -/
def peakLe (a b : Option ℚ) : Prop :=
  ∀ p : ℚ, a = some p → ∃ q : ℚ, b = some q ∧ p ≤ q

/-- The LONG track of the C1 scenario: threshold 100, armed and waiting. -/
def c1Track : TrackState :=
  { initialTrack with fsmState := .NOPOSITION_SIGNAL, threshold := some 100 }

/-- C1 scenario, minute-gap timing: state after the tick at price 100. -/
def c1s1 : TrackState := (processLongTickTransition c1Track "BTCUSDT" 100 1000).1

/-- C1 scenario, minute-gap timing: state after the tick at price 101, one
calendar minute later. -/
def c1s2 : TrackState := (processLongTickTransition c1s1 "BTCUSDT" 101 60000).1

/-- C1 scenario, minute-gap timing: state after the tick at price 99. -/
def c1s3 : TrackState := (processLongTickTransition c1s2 "BTCUSDT" 99 60001).1

/-- C1 scenario with all three ticks inside the same calendar minute. -/
def c1same1 : TrackState := (processLongTickTransition c1Track "BTCUSDT" 100 1000).1

/-- Same-minute C1 scenario after the tick at price 101. -/
def c1same2 : TrackState := (processLongTickTransition c1same1 "BTCUSDT" 101 2000).1

/-- Same-minute C1 scenario after the tick at price 99. -/
def c1same3 : TrackState := (processLongTickTransition c1same2 "BTCUSDT" 99 3000).1

/-- An engine that has seen one BTC tick at price 60. -/
def engineLtp60 : EngineState :=
  { initialEngine 0 with ltpBySymbol := [("BTCUSDT", 60)] }

/-- A BUY signal carrying an explicit stop price of 0. -/
def buySignalZeroStop : Signal :=
  { symbol := "BTCUSDT", intent := none, stoppx := some 0, side := some "BUY" }

/-- A SELL signal carrying stop price 50. -/
def sellSignalStop50 : Signal :=
  { symbol := "BTCUSDT", intent := none, stoppx := some 50, side := some "SELL" }

/-- A track locked out at time 30000 with threshold 100, used to instantiate
the lockout-expiry theorem. -/
def c3Blocked : TrackState :=
  { initialTrack with
      fsmState := .NOPOSITION_BLOCKED
      threshold := some 100
      lastBlockedAtMs := some 30000 }

/-- A live trade open at 102 on the tracked symbol. -/
def liveOpenBtc : LiveOpenTrade :=
  { symbol := "BTCUSDT", entryPrice := 102, quantity := 1, lot := 1 }

/-- A LONG track holding an open paper trade entered at 101, used to
instantiate the peak-tracking and promotion theorems. -/
def openLongTrack : TrackState :=
  { initialTrack with
      fsmState := .BUYPOSITION
      threshold := some 100
      paperTrade := some
        { symbol := "BTCUSDT", direction := .LONG, entryPrice := 101,
          currentPrice := 101, quantity := 1, unrealizedPnl := 0, enteredAt := 5 }
      liveState := { createLiveState with
        pendingPaperTrade := some { entryPrice := 101, quantity := 1, lot := 1, openedAt := 5 } } }

/-- The open-paper-trade track with a live trade also open, used to
instantiate the protective-close theorem. -/
def c5Track : TrackState :=
  { openLongTrack with
      liveState := { createLiveState with
        state := .POSITION
        openTrade := some liveOpenBtc
        pendingPaperTrade := some { entryPrice := 101, quantity := 1, lot := 1, openedAt := 5 } } }

/-- C1 (counterexample): with the three ticks 100, 101, 99 all falling in
the same calendar minute (times 1000, 2000, 3000), the LONG track armed at
threshold 100 blocks on the first tick and never enters at 101: no paper
trade is ever opened or closed, refuting the claimed unconditional entry and
stop-out for the price sequence alone. -/
theorem c1_same_minute_counterexample :
    c1same2.fsmState ≠ FsmState.BUYPOSITION
    ∧ c1same2.paperTrade = none
    ∧ c1same3.fsmState = FsmState.NOPOSITION_BLOCKED
    ∧ c1same3.paperTrades = [] := by
  refine ⟨?_, ?_, ?_, ?_⟩ <;>
    simp +decide [c1same3, c1same2, c1same1, c1Track, processLongTickTransition, longSafety,
      longPaperUpdate, longFsmStep, checkLiveTrade, clearExpiredLiveBlock,
      protectiveCloseStep, activateLiveStep, refreshLiveUnrealized, openPaperTrade,
      closePaperTrade, openLiveTrade, closeLiveTrade, updatedPeak, isFirstSecondNextMinute,
      initialTrack, createLiveState, POSITION_SIZE, OPEN_THRESHOLD, CLOSE_THRESHOLD, truthyMs]

/-- C1 (amended): for the LONG track with threshold 100 starting in
NOPOSITION_SIGNAL, the ticks 100, 101, 99 produce the claimed run provided
the tick at 101 falls in a later calendar minute than the (nonzero-time)
tick at 100, so that the lockout recorded on the non-crossing tick at 100
has expired: the track blocks at 100, enters at 101 (BUYPOSITION with paper
entry price 101), and stops out at 99, ending in NOPOSITION_BLOCKED with the
closed trade carrying negative realized PnL. -/
theorem c1_long_track_scenario :
    c1s1.fsmState = FsmState.NOPOSITION_BLOCKED
    ∧ c1s2.fsmState = FsmState.BUYPOSITION
    ∧ c1s2.paperTrade.map (·.entryPrice) = some 101
    ∧ c1s3.fsmState = FsmState.NOPOSITION_BLOCKED
    ∧ c1s3.paperTrades.head?.map (·.realizedPnl) = some (-20 / 101 : ℚ)
    ∧ (-20 / 101 : ℚ) < 0 := by
  refine ⟨?_, ?_, ?_, ?_, ?_, by norm_num⟩ <;>
    simp +decide [c1s3, c1s2, c1s1, c1Track, processLongTickTransition, longSafety,
      longPaperUpdate, longFsmStep, checkLiveTrade, clearExpiredLiveBlock,
      protectiveCloseStep, activateLiveStep, refreshLiveUnrealized, openPaperTrade,
      closePaperTrade, openLiveTrade, closeLiveTrade, updatedPeak, isFirstSecondNextMinute,
      initialTrack, createLiveState, POSITION_SIZE, OPEN_THRESHOLD, CLOSE_THRESHOLD, truthyMs] <;>
    norm_num

/-- C2 (counterexample): a BUY signal whose stopPrice is given as 0 while
the LTP is 60 sets the LONG threshold to 60, not to the given stopPrice:
the JavaScript fallback `stoppx || ltp` treats the given 0 as absent. -/
theorem c2_zero_stop_counterexample :
    (processWebhookSignal engineLtp60 buySignalZeroStop 5).longState.threshold = some 60
    ∧ buySignalZeroStop.stoppx = some 0
    ∧ (some (60 : ℚ) ≠ some (0 : ℚ)) := by
  refine ⟨?_, rfl, by norm_num⟩
  simp +decide [processWebhookSignal, engineLtp60, buySignalZeroStop, signalIsBuy,
    signalIsSell, strIncludes, getLtp, jsOrQ, initialEngine, initialTrack, createLiveState]

/-- C2 (amended): for every signal processed for the tracked instrument, if
it resolves to the LONG direction the LONG threshold is set to the given
stopPrice when that stopPrice is nonzero and otherwise to the current LTP
(a stopPrice of 0 is treated as absent by the `||` fallback); if it resolves
to the SHORT direction the SHORT threshold is always set to the current LTP
regardless of any stopPrice (in particular stopPrice 50 with LTP 60 yields
threshold 60). -/
theorem c2_threshold_rules (e : EngineState) (sig : Signal) (now : ℕ)
    (hsym : ¬ sig.symbol = "")
    (hbtc : strIncludes (strUpper sig.symbol) "BTC" = true) :
    (signalIsBuy sig = true →
      (∀ s : ℚ, sig.stoppx = some s → ¬ s = 0 →
          (processWebhookSignal e sig now).longState.threshold = some s)
        ∧ ((sig.stoppx = none ∨ sig.stoppx = some 0) →
          (processWebhookSignal e sig now).longState.threshold
            = getLtp e.ltpBySymbol (strUpper sig.symbol))
        ∧ (processWebhookSignal e sig now).shortState = e.shortState)
    ∧ (signalIsBuy sig = false → signalIsSell sig = true →
      (processWebhookSignal e sig now).shortState.threshold
          = getLtp e.ltpBySymbol (strUpper sig.symbol)
        ∧ (processWebhookSignal e sig now).longState = e.longState) := by
  unfold processWebhookSignal
  simp only [hsym, hbtc, if_false, ite_false, Bool.true_eq_false, if_neg, not_false_iff]
  constructor
  · intro hb
    refine ⟨?_, ?_, ?_⟩
    · intro s hs hs0
      simp [hb, hs, jsOrQ, hs0]
    · rintro (h | h) <;> simp [hb, h, jsOrQ]
    · simp [hb]
  · intro hb hsell
    simp [hb, hsell]

/-- C2 (witness): the SHORT scenario of the claim; a SELL signal with
stopPrice 50 while the LTP is 60 sets the SHORT threshold to 60. -/
theorem c2_threshold_rules_witness :
    (processWebhookSignal engineLtp60 sellSignalStop50 5).shortState.threshold = some 60 := by
  have h :=
    (c2_threshold_rules engineLtp60 sellSignalStop50 5 (by decide) (by decide)).2
      (by decide) (by decide)
  rw [h.1]
  decide

/-- C7: the daily reset check is idempotent within a calendar day: running
checkDailyReset twice inside the 05:30 trigger window with the same IST date
string yields exactly the engine state of running it once (the second run is
a no-op because lastResetDate already records that date). -/
theorem c7_daily_reset_idempotent (e : EngineState) (d : String) (t1 t2 : ℕ) :
    (checkDailyReset (checkDailyReset e 5 30 d t1).1 5 30 d t2).1
      = (checkDailyReset e 5 30 d t1).1 := by
  unfold checkDailyReset
  by_cases h : e.lastResetDate = some d
  · simp [h]
  · simp [h]

lemma closeLiveTrade_inv (dir : Direction) (ls : LiveState) (x : ℚ) (r : String) (n : ℕ)
    (h : liveInv ls) : liveInv (closeLiveTrade dir ls x r n).1 := by
  rcases hot : ls.openTrade with _ | ot
  · simpa [closeLiveTrade, hot] using h
  · simp [closeLiveTrade, hot, liveInv]

lemma openLiveTrade_inv (dir : Direction) (ls : LiveState) (p : ℚ) (sym : String)
    (h : liveInv ls) : liveInv (openLiveTrade dir ls p sym).1 := by
  rcases hp : ls.pendingPaperTrade with _ | pd
  · simpa [openLiveTrade, hp] using h
  · simp [openLiveTrade, hp, liveInv]

lemma clearExpiredLiveBlock_inv (ls : LiveState) (n : ℕ) (h : liveInv ls) :
    liveInv (clearExpiredLiveBlock ls n) := by
  rcases hb : ls.blockedAtMs with _ | b
  · simpa [clearExpiredLiveBlock, hb] using h
  · unfold clearExpiredLiveBlock
    rw [hb]
    dsimp only
    split_ifs
    · exact h
    · exact h

lemma protectiveCloseStep_inv (dir : Direction) (ls : LiveState) (tp cp : ℚ) (n : ℕ)
    (h : liveInv ls) : liveInv (protectiveCloseStep dir ls tp cp n).1 := by
  unfold protectiveCloseStep
  split_ifs with hc
  · have := closeLiveTrade_inv dir ls cp "Protective" n h
    simpa [liveInv] using this
  · exact h

lemma activateLiveStep_inv (dir : Direction) (ls : LiveState) (tp cp : ℚ) (sym : String)
    (h : liveInv ls) : liveInv (activateLiveStep dir ls tp cp sym).1 := by
  unfold activateLiveStep
  split_ifs with hc
  · exact openLiveTrade_inv dir ls cp sym h
  · exact h

lemma refreshLiveUnrealized_inv (dir : Direction) (ls : LiveState) (cp : ℚ)
    (h : liveInv ls) : liveInv (refreshLiveUnrealized dir ls cp) := by
  rcases hot : ls.openTrade with _ | ot
  · simpa [refreshLiveUnrealized, hot] using h
  · unfold refreshLiveUnrealized
    rw [hot]
    simpa [liveInv, hot] using h

lemma checkLiveTrade_inv (dir : Direction) (ls : LiveState) (tp cp : ℚ) (sym : String)
    (n : ℕ) (h : liveInv ls) : liveInv (checkLiveTrade dir ls tp cp sym n).1 := by
  unfold checkLiveTrade
  exact refreshLiveUnrealized_inv _ _ _
    (activateLiveStep_inv _ _ _ _ _
      (protectiveCloseStep_inv _ _ _ _ _ (clearExpiredLiveBlock_inv _ _ h)))

lemma closePaperTrade_inv (dir : Direction) (st : TrackState) (x : ℚ) (r : String) (n : ℕ)
    (h : liveInv st.liveState) : liveInv (closePaperTrade dir st x r n).1.liveState := by
  rcases hpt : st.paperTrade with _ | t
  · simpa [closePaperTrade, hpt] using h
  · unfold closePaperTrade
    rw [hpt]
    dsimp only
    split_ifs with hc
    · exact closeLiveTrade_inv dir _ x r n h
    · exact h

lemma openPaperTrade_inv (dir : Direction) (st : TrackState) (sym : String) (p : ℚ) (n : ℕ)
    (h : liveInv st.liveState) : liveInv (openPaperTrade dir st sym p n).liveState := by
  rcases hpt : st.paperTrade with _ | t
  · unfold openPaperTrade
    rw [hpt]
    simpa [liveInv] using h
  · simpa [openPaperTrade, hpt] using h

lemma longSafety_inv (st : TrackState) (h : liveInv st.liveState) :
    liveInv (longSafety st).liveState := by
  unfold longSafety
  split_ifs <;> simpa [liveInv] using h

lemma shortSafety_inv (st : TrackState) (h : liveInv st.liveState) :
    liveInv (shortSafety st).liveState := by
  unfold shortSafety
  split_ifs <;> simpa [liveInv] using h

lemma longPaperUpdate_inv (st : TrackState) (sym : String) (ltp : ℚ) (n : ℕ)
    (h : liveInv st.liveState) : liveInv (longPaperUpdate st sym ltp n).1.liveState := by
  unfold longPaperUpdate
  rcases hpt : st.paperTrade with _ | t
  · exact h
  · dsimp only
    split_ifs with hs
    · exact checkLiveTrade_inv _ _ _ _ _ _ h
    · exact h

lemma shortPaperUpdate_inv (st : TrackState) (sym : String) (ltp : ℚ) (n : ℕ)
    (h : liveInv st.liveState) : liveInv (shortPaperUpdate st sym ltp n).1.liveState := by
  unfold shortPaperUpdate
  rcases hpt : st.paperTrade with _ | t
  · exact h
  · dsimp only
    split_ifs with hs
    · exact checkLiveTrade_inv _ _ _ _ _ _ h
    · exact h

lemma longFsmStep_inv (st : TrackState) (θ : ℚ) (sym : String) (ltp : ℚ) (n : ℕ)
    (h : liveInv st.liveState) : liveInv (longFsmStep st θ sym ltp n).1.liveState := by
  unfold longFsmStep
  rcases st.fsmState <;> dsimp only
  · exact h
  · split_ifs
    · exact openPaperTrade_inv _ _ _ _ _ h
    · exact h
  · split_ifs with hc
    · exact closePaperTrade_inv .LONG st ltp "Stop Loss" n h
    · exact h
  · exact h
  · rcases st.lastBlockedAtMs with _ | b <;> dsimp only
    · exact h
    · split_ifs
      · exact openPaperTrade_inv _ _ _ _ _ h
      · exact h
      · exact h

lemma shortFsmStep_inv (st : TrackState) (θ : ℚ) (sym : String) (ltp : ℚ) (n : ℕ)
    (h : liveInv st.liveState) : liveInv (shortFsmStep st θ sym ltp n).1.liveState := by
  unfold shortFsmStep
  rcases st.fsmState <;> dsimp only
  · exact h
  · split_ifs
    · exact openPaperTrade_inv _ _ _ _ _ h
    · exact h
  · exact h
  · split_ifs with hc
    · exact closePaperTrade_inv .SHORT st ltp "Stop Loss" n h
    · exact h
  · rcases st.lastBlockedAtMs with _ | b <;> dsimp only
    · exact h
    · split_ifs
      · exact openPaperTrade_inv _ _ _ _ _ h
      · exact h
      · exact h

lemma processLong_inv (st : TrackState) (sym : String) (ltp : ℚ) (n : ℕ)
    (h : liveInv st.liveState) :
    liveInv (processLongTickTransition st sym ltp n).1.liveState := by
  unfold processLongTickTransition
  have h1 := longPaperUpdate_inv (longSafety st) sym ltp n (longSafety_inv st h)
  dsimp only
  rcases hth : (longPaperUpdate (longSafety st) sym ltp n).1.threshold with _ | θ <;>
    simp only [hth]
  · exact h1
  · exact longFsmStep_inv _ _ _ _ _ h1

lemma processShort_inv (st : TrackState) (sym : String) (ltp : ℚ) (n : ℕ)
    (h : liveInv st.liveState) :
    liveInv (processShortTickTransition st sym ltp n).1.liveState := by
  unfold processShortTickTransition
  have h1 := shortPaperUpdate_inv (shortSafety st) sym ltp n (shortSafety_inv st h)
  dsimp only
  rcases hth : (shortPaperUpdate (shortSafety st) sym ltp n).1.threshold with _ | θ <;>
    simp only [hth]
  · exact h1
  · exact shortFsmStep_inv _ _ _ _ _ h1

lemma resetTrack_inv (st : TrackState) : liveInv (resetTrack st).liveState := by
  simp [resetTrack, liveInv]

lemma loadTrack_inv (init : TrackState) (pt : PersistedTrack) (h : liveInv init.liveState) :
    liveInv (loadTrack init pt).liveState := by
  simpa [loadTrack, liveInv] using h

/-- C8: the Live Sub-track invariant (an open live trade exists exactly when
the live state is POSITION) holds for the fresh live sub-track and is
preserved by live open, live close, the live promotion/demotion check, LONG
and SHORT tick processing, the daily reset, and the state restore at
startup. -/
theorem c8_open_trade_iff_position :
    liveInv createLiveState
    ∧ (∀ dir ls p sym, liveInv ls → liveInv (openLiveTrade dir ls p sym).1)
    ∧ (∀ dir ls p r n, liveInv ls → liveInv (closeLiveTrade dir ls p r n).1)
    ∧ (∀ dir ls tp cp sym n, liveInv ls → liveInv (checkLiveTrade dir ls tp cp sym n).1)
    ∧ (∀ st sym ltp n, liveInv st.liveState →
        liveInv (processLongTickTransition st sym ltp n).1.liveState)
    ∧ (∀ st sym ltp n, liveInv st.liveState →
        liveInv (processShortTickTransition st sym ltp n).1.liveState)
    ∧ (∀ e n, liveInv (performDailyReset e n).1.longState.liveState
        ∧ liveInv (performDailyReset e n).1.shortState.liveState)
    ∧ (∀ t file n, liveInv (loadState (initialEngine t) file n).longState.liveState
        ∧ liveInv (loadState (initialEngine t) file n).shortState.liveState) := by
  refine ⟨?_, openLiveTrade_inv, closeLiveTrade_inv, checkLiveTrade_inv,
    processLong_inv, processShort_inv, ?_, ?_⟩
  · simp [liveInv, createLiveState]
  · intro e n
    exact ⟨resetTrack_inv _, resetTrack_inv _⟩
  · intro t file n
    have hinit : liveInv (initialEngine t).longState.liveState := by
      simp [initialEngine, initialTrack, liveInv, createLiveState]
    have hinit' : liveInv (initialEngine t).shortState.liveState := by
      simp [initialEngine, initialTrack, liveInv, createLiveState]
    rcases file with _ | ps
    · exact ⟨hinit, hinit'⟩
    · rcases ps with ⟨sa, lrd, lrt, psl, pss⟩
      unfold loadState
      rcases psl with _ | ptL <;> rcases pss with _ | ptS <;> dsimp only <;>
        exact ⟨hinit, hinit'⟩

/-- C8 (witness): the invariant transfer applied at a concrete input: a
live open on the fresh live sub-track preserves the invariant. -/
theorem c8_open_trade_iff_position_witness :
    liveInv (openLiveTrade .LONG createLiveState 5 "BTCUSDT").1 :=
  c8_open_trade_iff_position.2.1 .LONG createLiveState 5 "BTCUSDT"
    c8_open_trade_iff_position.1

lemma getCumLivePnl_spec_aux (reset : ℕ) :
    ∀ (l : List LiveTradeRow) (a : ℚ),
      l.foldl
        (fun sum t =>
          if liveExitCounts reset t then sum + t.realizedPnl.getD 0 else sum) a
        = a + ((l.filter fun t =>
            decide (t.action = .EXIT) &&
              (match t.closedAt with
               | some c => decide (reset < c)
               | none => false)).map
          fun t => t.realizedPnl.getD 0).sum := by
  intro l
  induction l with
  | nil => intro a; simp
  | cons t l ih =>
    intro a
    rcases t with ⟨tsym, tact, te, tx, tq, trp, tc, tcl⟩
    rw [List.foldl_cons, ih]
    cases tact with
    | ENTRY => simp [liveExitCounts, List.filter_cons]
    | EXIT =>
      rcases tcl with _ | c
      · simp [liveExitCounts, List.filter_cons]
      · rcases trp with _ | r
        · by_cases hrc : reset < c
          · simp [liveExitCounts, List.filter_cons, hrc]
          · simp [liveExitCounts, List.filter_cons, hrc]
        · by_cases hrc : reset < c
          · have hc0 : c ≠ 0 := by omega
            simp [liveExitCounts, List.filter_cons, hrc, hc0, add_assoc]
          · simp [liveExitCounts, List.filter_cons, hrc]

/-- C9: the live cumulative PnL figure of the snapshot sums realizedPnl over
exactly the EXIT rows of the live ledger whose closedAt timestamp is
strictly greater than lastResetTimestamp; ENTRY rows and EXIT rows closed at
or before the reset contribute nothing. -/
theorem c9_cum_live_pnl (ls : LiveState) (reset : ℕ) :
    getCumLivePnl ls reset = specCumLivePnl ls reset := by
  unfold getCumLivePnl specCumLivePnl
  rw [getCumLivePnl_spec_aux reset ls.trades 0, zero_add]

/-- C3: a track blocked at (nonzero) time b with a set threshold and no
open paper trade stays exactly as it is on every tick in the same or an
earlier calendar minute; on a tick in a strictly later calendar minute the
breakout condition is re-evaluated against that tick's price (LONG enters
above the threshold, SHORT below), entering at the tick price if it holds
and otherwise staying blocked with the lockout anchor reset to the tick
time. -/
theorem c3_lockout_minute_boundary (st : TrackState) (sym : String) (ltp : ℚ)
    (now b : ℕ) (θ : ℚ)
    (hfsm : st.fsmState = .NOPOSITION_BLOCKED)
    (hb : st.lastBlockedAtMs = some b)
    (hbpos : 0 < b)
    (hth : st.threshold = some θ)
    (hpt : st.paperTrade = none) :
    (now / 60000 ≤ b / 60000 →
      (processLongTickTransition st sym ltp now).1 = st
      ∧ (processShortTickTransition st sym ltp now).1 = st)
    ∧ (b / 60000 < now / 60000 →
      ((θ < ltp →
          (processLongTickTransition st sym ltp now).1.fsmState = .BUYPOSITION
          ∧ (processLongTickTransition st sym ltp now).1.paperTrade.map (·.entryPrice)
              = some ltp)
        ∧ (¬ θ < ltp →
          (processLongTickTransition st sym ltp now).1.fsmState = .NOPOSITION_BLOCKED
          ∧ (processLongTickTransition st sym ltp now).1.paperTrade = none
          ∧ (processLongTickTransition st sym ltp now).1.lastBlockedAtMs = some now))
      ∧ ((ltp < θ →
          (processShortTickTransition st sym ltp now).1.fsmState = .SELLPOSITION
          ∧ (processShortTickTransition st sym ltp now).1.paperTrade.map (·.entryPrice)
              = some ltp)
        ∧ (¬ ltp < θ →
          (processShortTickTransition st sym ltp now).1.fsmState = .NOPOSITION_BLOCKED
          ∧ (processShortTickTransition st sym ltp now).1.paperTrade = none
          ∧ (processShortTickTransition st sym ltp now).1.lastBlockedAtMs = some now))) := by
  have hb0 : b ≠ 0 := Nat.pos_iff_ne_zero.mp hbpos
  constructor
  · intro hm
    have hnm : isFirstSecondNextMinute b now = false := by
      simp only [isFirstSecondNextMinute, decide_eq_false_iff_not, not_lt]
      exact hm
    constructor <;>
      simp [processLongTickTransition, processShortTickTransition, longSafety, shortSafety,
        longPaperUpdate, shortPaperUpdate, longFsmStep, shortFsmStep, hfsm, hb, hth, hpt, hnm]
  · intro hm
    have hym : isFirstSecondNextMinute b now = true := by
      simpa only [isFirstSecondNextMinute, decide_eq_true_eq] using hm
    refine ⟨⟨?_, ?_⟩, ⟨?_, ?_⟩⟩ <;> intro hcmp <;>
      simp [processLongTickTransition, processShortTickTransition, longSafety, shortSafety,
        longPaperUpdate, shortPaperUpdate, longFsmStep, shortFsmStep, openPaperTrade,
        hfsm, hb, hth, hpt, hym, hb0, hcmp]

/-- C3 (witness): blocked at time 30000 with threshold 100, a tick at price
101 in the next minute (time 60000) re-enters the LONG position. -/
theorem c3_lockout_minute_boundary_witness :
    (processLongTickTransition c3Blocked "BTCUSDT" 101 60000).1.fsmState
      = FsmState.BUYPOSITION :=
  (((c3_lockout_minute_boundary c3Blocked "BTCUSDT" 101 60000 30000 100
      rfl rfl (by norm_num) rfl rfl).2 (by norm_num)).1.1 (by norm_num)).1

lemma updatedPeak_le (cur : Option ℚ) (pnl : ℚ) : peakLe cur (updatedPeak cur pnl) := by
  intro p hp
  subst hp
  by_cases hc : 0 < pnl ∧ p < pnl
  · exact ⟨pnl, by simp [updatedPeak, hc], le_of_lt hc.2⟩
  · exact ⟨p, by simp [updatedPeak, hc], le_refl p⟩

lemma updatedPeak_pos (cur : Option ℚ) (pnl : ℚ) (h : ∀ p, cur = some p → 0 < p) :
    ∀ q, updatedPeak cur pnl = some q → 0 < q := by
  intro q hq
  rcases cur with _ | p <;> simp only [updatedPeak] at hq
  · by_cases hc : 0 < pnl
    · rw [if_pos hc] at hq
      cases hq
      exact hc
    · rw [if_neg hc] at hq
      cases hq
  · by_cases hc : 0 < pnl ∧ p < pnl
    · rw [if_pos hc] at hq
      cases hq
      exact hc.1
    · rw [if_neg hc] at hq
      cases hq
      exact h q rfl

lemma longPaperUpdate_peak_mono (st : TrackState) (sym : String) (ltp : ℚ) (now : ℕ)
    (hinv : peakInv st) :
    peakLe st.currentPeakPnl (longPaperUpdate st sym ltp now).1.currentPeakPnl
    ∧ peakInv (longPaperUpdate st sym ltp now).1 := by
  unfold longPaperUpdate
  rcases hpt : st.paperTrade with _ | t
  · exact ⟨fun p hp => ⟨p, hp, le_refl p⟩, hinv⟩
  · dsimp only
    split_ifs with hs
    · exact ⟨updatedPeak_le _ _, fun p hp => updatedPeak_pos _ _ hinv p hp⟩
    · exact ⟨fun p hp => ⟨p, hp, le_refl p⟩, hinv⟩

lemma closePaperTrade_paperTrade_none (dir : Direction) (st : TrackState) (x : ℚ)
    (r : String) (n : ℕ) (h : st.paperTrade = none → False) :
    (closePaperTrade dir st x r n).1.paperTrade = none := by
  unfold closePaperTrade
  rcases hpt : st.paperTrade with _ | t
  · exact absurd hpt h
  · rfl

lemma openPaperTrade_peak (dir : Direction) (st : TrackState) (sym : String) (p : ℚ)
    (n : ℕ) : (openPaperTrade dir st sym p n).currentPeakPnl = st.currentPeakPnl := by
  unfold openPaperTrade
  rcases st.paperTrade with _ | t <;> rfl

lemma longFsmStep_peak (st : TrackState) (θ : ℚ) (sym : String) (ltp : ℚ) (now : ℕ)
    (hpt : st.paperTrade ≠ none) :
    (longFsmStep st θ sym ltp now).1.paperTrade.isSome = true →
      (longFsmStep st θ sym ltp now).1.currentPeakPnl = st.currentPeakPnl := by
  unfold longFsmStep
  rcases st.fsmState <;> dsimp only
  · intro _; rfl
  · split_ifs with hc
    · intro _
      exact openPaperTrade_peak _ _ _ _ _
    · intro _; rfl
  · split_ifs with hc
    · intro h
      rw [closePaperTrade_paperTrade_none _ _ _ _ _ (fun he => hpt he)] at h
      cases h
    · intro _; rfl
  · intro _; rfl
  · rcases st.lastBlockedAtMs with _ | b <;> dsimp only
    · intro _; rfl
    · split_ifs
      · intro _
        exact openPaperTrade_peak _ _ _ _ _
      · intro _; rfl
      · intro _; rfl

/-- C6: while a paper trade is open, a tick never lowers the recorded peak
and any recorded peak is strictly positive (given it was before the tick);
at paper-trade close the peak is archived to peakPnlHistory exactly when it
is positive, and currentPeakPnl is cleared. -/
theorem c6_peak_tracking (st : TrackState) (sym : String) (ltp : ℚ) (now : ℕ)
    (dir : Direction) (x : ℚ) (r : String) (n : ℕ) (t : PaperTrade)
    (hopen : st.paperTrade = some t) (hinv : peakInv st) :
    ((processLongTickTransition st sym ltp now).1.paperTrade.isSome = true →
      peakLe st.currentPeakPnl (processLongTickTransition st sym ltp now).1.currentPeakPnl
      ∧ peakInv (processLongTickTransition st sym ltp now).1)
    ∧ (closePaperTrade dir st x r n).1.currentPeakPnl = none
    ∧ (∀ p : ℚ, st.currentPeakPnl = some p → 0 < p →
        (closePaperTrade dir st x r n).1.peakPnlHistory
          = ({ pnl := p, timestamp := n } : PeakRecord) :: st.peakPnlHistory)
    ∧ (∀ p : ℚ, st.currentPeakPnl = some p → p ≤ 0 →
        (closePaperTrade dir st x r n).1.peakPnlHistory = st.peakPnlHistory)
    ∧ (st.currentPeakPnl = none →
        (closePaperTrade dir st x r n).1.peakPnlHistory = st.peakPnlHistory) := by
  have hsafety : longSafety st = st := by
    unfold longSafety
    simp [hopen]
  have hmono := longPaperUpdate_peak_mono st sym ltp now hinv
  have hupt : (longPaperUpdate st sym ltp now).1.paperTrade ≠ none := by
    unfold longPaperUpdate
    rcases hpt : st.paperTrade with _ | t'
    · exact absurd hpt (by simp [hopen])
    · dsimp only
      split_ifs <;> simp [hpt]
  refine ⟨?_, ?_, ?_, ?_, ?_⟩
  · intro hps
    unfold processLongTickTransition at hps ⊢
    rw [hsafety] at hps ⊢
    rcases hth : (longPaperUpdate st sym ltp now).1.threshold with _ | θ
    · simp only [hth] at hps ⊢
      exact hmono
    · simp only [hth] at hps ⊢
      have hpk := longFsmStep_peak (longPaperUpdate st sym ltp now).1 θ sym ltp now hupt hps
      constructor
      · rw [hpk]
        exact hmono.1
      · intro p hp
        exact hmono.2 p (hpk ▸ hp)
  · unfold closePaperTrade
    rw [hopen]
  · intro p hp hpos
    unfold closePaperTrade
    rw [hopen]
    simp [hp, hpos]
  · intro p hp hle
    unfold closePaperTrade
    rw [hopen]
    simp [hp, not_lt.mpr hle]
  · intro hp
    unfold closePaperTrade
    rw [hopen]
    simp [hp]

/-- C6 (witness): the theorem applied to a concrete open LONG trade with no
recorded peak; closing it leaves the peak history unchanged and the current
peak cleared. -/
theorem c6_peak_tracking_witness :
    (closePaperTrade .LONG openLongTrack 99 "Stop Loss" 7).1.currentPeakPnl = none :=
  (c6_peak_tracking openLongTrack "BTCUSDT" 103 6 .LONG 99 "Stop Loss" 7 _ rfl
    (fun p hp => by simp [openLongTrack, initialTrack] at hp)).2.1

lemma checkLiveTrade_protective (dir : Direction) (ls : LiveState) (ot : LiveOpenTrade)
    (tp cp : ℚ) (sym : String) (now : ℕ)
    (hstate : ls.state = .POSITION) (hot : ls.openTrade = some ot)
    (htp : tp ≤ CLOSE_THRESHOLD) :
    checkLiveTrade dir ls tp cp sym now
      = ({ state := .NO_POSITION
           cumulativePnl := ls.cumulativePnl +
             (match dir with
              | .LONG => (cp - ot.entryPrice) * ot.quantity * ot.lot
              | .SHORT => (ot.entryPrice - cp) * ot.quantity * ot.lot)
           unrealizedPnl := 0
           blockedAtMs := some now
           openTrade := none
           pendingPaperTrade := ls.pendingPaperTrade
           trades := (({ symbol := ot.symbol,
                         action := .EXIT,
                         entryPrice := ot.entryPrice,
                         exitPrice := some cp,
                         quantity := ot.quantity,
                         realizedPnl := some (match dir with
                           | .LONG => (cp - ot.entryPrice) * ot.quantity * ot.lot
                           | .SHORT => (ot.entryPrice - cp) * ot.quantity * ot.lot),
                         cumulativePnl := ls.cumulativePnl +
                           (match dir with
                            | .LONG => (cp - ot.entryPrice) * ot.quantity * ot.lot
                            | .SHORT => (ot.entryPrice - cp) * ot.quantity * ot.lot),
                         closedAt := some now } : LiveTradeRow) :: ls.trades).take 50 },
         [{ kind := .EXIT, symbol := ot.symbol, refPrice := cp, direction := dir,
            reason := some "Protective" }]) := by
  rcases ls with ⟨s, cum, unr, blk, opt, pend, tr⟩
  obtain rfl : s = .POSITION := hstate
  obtain rfl : opt = some ot := hot
  unfold checkLiveTrade clearExpiredLiveBlock protectiveCloseStep activateLiveStep
    refreshLiveUnrealized closeLiveTrade
  have htp0 : tp ≤ (0 : ℚ) := htp
  rcases blk with _ | b <;> dsimp only <;> split_ifs <;>
    first
      | rfl
      | (exfalso; simp_all [OPEN_THRESHOLD, CLOSE_THRESHOLD]; try linarith)

lemma checkLiveTrade_activate (dir : Direction) (ls : LiveState) (p : PendingPaperTrade)
    (tp cp : ℚ) (sym : String) (now : ℕ)
    (hstate : ls.state = .NO_POSITION) (hpend : ls.pendingPaperTrade = some p)
    (hblk : ls.blockedAtMs = none) (htp : OPEN_THRESHOLD < tp) :
    checkLiveTrade dir ls tp cp sym now
      = ({ state := .POSITION
           cumulativePnl := ls.cumulativePnl
           unrealizedPnl := (match dir with
             | .LONG => (cp - cp) * p.quantity * p.lot
             | .SHORT => (cp - cp) * p.quantity * p.lot)
           blockedAtMs := none
           openTrade := some { symbol := sym,
                               entryPrice := cp,
                               quantity := p.quantity,
                               lot := p.lot }
           pendingPaperTrade := some p
           trades := (({ symbol := sym,
                         action := .ENTRY,
                         entryPrice := cp,
                         exitPrice := none,
                         quantity := p.quantity,
                         realizedPnl := none,
                         cumulativePnl := ls.cumulativePnl,
                         closedAt := none } : LiveTradeRow) :: ls.trades).take 50 },
         [{ kind := .ENTRY, symbol := sym, refPrice := cp, direction := dir,
            reason := none }]) := by
  rcases ls with ⟨s, cum, unr, blk, opt, pend, tr⟩
  obtain rfl : s = .NO_POSITION := hstate
  obtain rfl : pend = some p := hpend
  obtain rfl : blk = none := hblk
  have htp0 : (0 : ℚ) < tp := htp
  unfold checkLiveTrade clearExpiredLiveBlock protectiveCloseStep activateLiveStep
    refreshLiveUnrealized openLiveTrade truthyMs
  dsimp only
  split_ifs <;>
    first
      | (rcases dir <;> rfl)
      | (exfalso; simp_all [OPEN_THRESHOLD, CLOSE_THRESHOLD]; try linarith)

lemma checkLiveTrade_steady (dir : Direction) (ls : LiveState) (ot : LiveOpenTrade)
    (tp cp : ℚ) (sym : String) (now : ℕ)
    (hstate : ls.state = .POSITION) (hot : ls.openTrade = some ot)
    (hblk : ls.blockedAtMs = none) (htp : CLOSE_THRESHOLD < tp) :
    checkLiveTrade dir ls tp cp sym now
      = ({ ls with unrealizedPnl := match dir with
             | .LONG => (cp - ot.entryPrice) * ot.quantity * ot.lot
             | .SHORT => (ot.entryPrice - cp) * ot.quantity * ot.lot }, []) := by
  rcases ls with ⟨s, cum, unr, blk, opt, pend, tr⟩
  obtain rfl : s = .POSITION := hstate
  obtain rfl : opt = some ot := hot
  obtain rfl : blk = none := hblk
  have htp0 : (0 : ℚ) < tp := htp
  unfold checkLiveTrade clearExpiredLiveBlock protectiveCloseStep activateLiveStep
    refreshLiveUnrealized
  dsimp only
  split_ifs <;>
    first
      | rfl
      | (exfalso; simp_all [OPEN_THRESHOLD, CLOSE_THRESHOLD]; try linarith)

lemma checkLiveTrade_idle (dir : Direction) (ls : LiveState)
    (tp cp : ℚ) (sym : String) (now : ℕ)
    (hstate : ls.state = .NO_POSITION) (hot : ls.openTrade = none)
    (htp : tp ≤ OPEN_THRESHOLD) :
    checkLiveTrade dir ls tp cp sym now = (clearExpiredLiveBlock ls now, []) := by
  rcases ls with ⟨s, cum, unr, blk, opt, pend, tr⟩
  obtain rfl : s = .NO_POSITION := hstate
  obtain rfl : opt = none := hot
  have htp0 : tp ≤ (0 : ℚ) := htp
  unfold checkLiveTrade clearExpiredLiveBlock protectiveCloseStep activateLiveStep
    refreshLiveUnrealized
  rcases blk with _ | b <;> dsimp only <;> split_ifs <;>
    first
      | rfl
      | (exfalso; simp_all [OPEN_THRESHOLD, CLOSE_THRESHOLD]; try linarith)

lemma longSafety_open (st : TrackState) (t : PaperTrade) (hpt : st.paperTrade = some t) :
    longSafety st = st := by
  unfold longSafety
  simp [hpt]

lemma longPaperUpdate_open (st : TrackState) (sym : String) (ltp : ℚ) (now : ℕ)
    (t : PaperTrade) (hpt : st.paperTrade = some t) (hsym : t.symbol = sym) :
    longPaperUpdate st sym ltp now
      = ({ st with
            paperTrade := some { t with currentPrice := ltp,
                                        unrealizedPnl := (ltp - t.entryPrice) * t.quantity }
            currentPeakPnl := updatedPeak st.currentPeakPnl ((ltp - t.entryPrice) * t.quantity)
            liveState := (checkLiveTrade .LONG st.liveState
              (st.liveState.cumulativePnl + (ltp - t.entryPrice) * t.quantity)
              ltp sym now).1 },
         (checkLiveTrade .LONG st.liveState
           (st.liveState.cumulativePnl + (ltp - t.entryPrice) * t.quantity)
           ltp sym now).2) := by
  unfold longPaperUpdate
  rw [hpt]
  dsimp only
  rw [if_pos hsym]

lemma openPaperTrade_live (dir : Direction) (st : TrackState) (sym : String) (p : ℚ)
    (n : ℕ) :
    (openPaperTrade dir st sym p n).liveState.openTrade = st.liveState.openTrade
    ∧ (openPaperTrade dir st sym p n).liveState.state = st.liveState.state
    ∧ (openPaperTrade dir st sym p n).liveState.blockedAtMs = st.liveState.blockedAtMs
    ∧ (openPaperTrade dir st sym p n).liveState.trades = st.liveState.trades := by
  unfold openPaperTrade
  rcases st.paperTrade with _ | t <;> exact ⟨rfl, rfl, rfl, rfl⟩

lemma closePaperTrade_live_noop (dir : Direction) (st : TrackState) (x : ℚ) (r : String)
    (n : ℕ) (hot : st.liveState.openTrade = none) :
    (closePaperTrade dir st x r n).1.liveState.openTrade = none
    ∧ (closePaperTrade dir st x r n).1.liveState.state = st.liveState.state
    ∧ (closePaperTrade dir st x r n).1.liveState.blockedAtMs = st.liveState.blockedAtMs
    ∧ (closePaperTrade dir st x r n).1.liveState.trades = st.liveState.trades
    ∧ (closePaperTrade dir st x r n).2 = [] := by
  unfold closePaperTrade
  rcases st.paperTrade with _ | t <;> dsimp only
  · exact ⟨hot, rfl, rfl, rfl, rfl⟩
  · rw [if_neg (by simp [hot])]
    exact ⟨hot, rfl, rfl, rfl, rfl⟩

lemma longFsmStep_live_noop (st : TrackState) (θ : ℚ) (sym : String) (ltp : ℚ) (now : ℕ)
    (hot : st.liveState.openTrade = none) :
    (longFsmStep st θ sym ltp now).1.liveState.openTrade = none
    ∧ (longFsmStep st θ sym ltp now).1.liveState.state = st.liveState.state
    ∧ (longFsmStep st θ sym ltp now).1.liveState.blockedAtMs = st.liveState.blockedAtMs
    ∧ (longFsmStep st θ sym ltp now).1.liveState.trades = st.liveState.trades
    ∧ (longFsmStep st θ sym ltp now).2 = [] := by
  unfold longFsmStep
  rcases st.fsmState <;> dsimp only
  · exact ⟨hot, rfl, rfl, rfl, rfl⟩
  · split_ifs
    · exact ⟨(openPaperTrade_live .LONG _ sym ltp now).1.trans hot,
        (openPaperTrade_live .LONG _ sym ltp now).2.1,
        (openPaperTrade_live .LONG _ sym ltp now).2.2.1,
        (openPaperTrade_live .LONG _ sym ltp now).2.2.2, rfl⟩
    · exact ⟨hot, rfl, rfl, rfl, rfl⟩
  · split_ifs
    · obtain ⟨h1, h2, h3, h4, h5⟩ := closePaperTrade_live_noop .LONG st ltp "Stop Loss" now hot
      exact ⟨h1, h2, h3, h4, h5⟩
    · exact ⟨hot, rfl, rfl, rfl, rfl⟩
  · exact ⟨hot, rfl, rfl, rfl, rfl⟩
  · rcases st.lastBlockedAtMs with _ | b <;> dsimp only
    · exact ⟨hot, rfl, rfl, rfl, rfl⟩
    · split_ifs
      · exact ⟨(openPaperTrade_live .LONG _ sym ltp now).1.trans hot,
          (openPaperTrade_live .LONG _ sym ltp now).2.1,
          (openPaperTrade_live .LONG _ sym ltp now).2.2.1,
          (openPaperTrade_live .LONG _ sym ltp now).2.2.2, rfl⟩
      · exact ⟨hot, rfl, rfl, rfl, rfl⟩
      · exact ⟨hot, rfl, rfl, rfl, rfl⟩

lemma clearExpiredLiveBlock_none (ls : LiveState) (now : ℕ)
    (hblk : ls.blockedAtMs = none) : clearExpiredLiveBlock ls now = ls := by
  unfold clearExpiredLiveBlock
  rw [hblk]

lemma processLong_buy_nostop (st : TrackState) (sym : String) (ltp : ℚ) (now : ℕ)
    (t : PaperTrade) (θ : ℚ)
    (hpt : st.paperTrade = some t) (hsym : t.symbol = sym)
    (hfsm : st.fsmState = .BUYPOSITION) (hth : st.threshold = some θ) (hno : θ ≤ ltp) :
    processLongTickTransition st sym ltp now
      = ({ st with
            paperTrade := some { t with currentPrice := ltp,
                                        unrealizedPnl := (ltp - t.entryPrice) * t.quantity }
            currentPeakPnl := updatedPeak st.currentPeakPnl ((ltp - t.entryPrice) * t.quantity)
            liveState := (checkLiveTrade .LONG st.liveState
              (st.liveState.cumulativePnl + (ltp - t.entryPrice) * t.quantity)
              ltp sym now).1 },
         (checkLiveTrade .LONG st.liveState
           (st.liveState.cumulativePnl + (ltp - t.entryPrice) * t.quantity)
           ltp sym now).2) := by
  unfold processLongTickTransition
  dsimp only
  rw [longSafety_open st t hpt, longPaperUpdate_open st sym ltp now t hpt hsym]
  dsimp only
  rw [hth]
  dsimp only
  unfold longFsmStep
  dsimp only
  rw [hfsm]
  dsimp only
  rw [if_neg (not_lt.mpr hno)]
  simp

/-- C4: while the live sub-track is flat with a pending paper trade and no
lockout, a tick that keeps the paper trade open and lifts totalPnl above the
open threshold opens exactly one live trade at the tick price with the
pending quantity and lot and emits exactly one ENTRY call; a subsequent tick
that keeps totalPnl positive emits nothing further and leaves the open live
trade and the ledger unchanged. -/
theorem c4_promotion_exactly_once (st : TrackState) (sym : String) (q1 q2 : ℚ)
    (τ1 τ2 : ℕ) (t : PaperTrade) (p : PendingPaperTrade) (θ : ℚ)
    (hpt : st.paperTrade = some t) (hsym : t.symbol = sym)
    (hfsm : st.fsmState = .BUYPOSITION) (hth : st.threshold = some θ)
    (hstate : st.liveState.state = .NO_POSITION)
    (hpend : st.liveState.pendingPaperTrade = some p)
    (hblk : st.liveState.blockedAtMs = none)
    (h1 : θ ≤ q1) (h2 : θ ≤ q2)
    (hp1 : 0 < st.liveState.cumulativePnl + (q1 - t.entryPrice) * t.quantity)
    (hp2 : 0 < st.liveState.cumulativePnl + (q2 - t.entryPrice) * t.quantity) :
    (processLongTickTransition st sym q1 τ1).2
      = [{ kind := .ENTRY, symbol := sym, refPrice := q1, direction := .LONG,
           reason := none }]
    ∧ (processLongTickTransition st sym q1 τ1).1.liveState.state = .POSITION
    ∧ (processLongTickTransition st sym q1 τ1).1.liveState.openTrade
        = some { symbol := sym, entryPrice := q1, quantity := p.quantity, lot := p.lot }
    ∧ (processLongTickTransition (processLongTickTransition st sym q1 τ1).1 sym q2 τ2).2
        = []
    ∧ ((processLongTickTransition (processLongTickTransition st sym q1 τ1).1 sym q2 τ2).1).liveState.openTrade
        = (processLongTickTransition st sym q1 τ1).1.liveState.openTrade
    ∧ ((processLongTickTransition (processLongTickTransition st sym q1 τ1).1 sym q2 τ2).1).liveState.trades
        = (processLongTickTransition st sym q1 τ1).1.liveState.trades := by
  have hcheck1 := checkLiveTrade_activate .LONG st.liveState p
    (st.liveState.cumulativePnl + (q1 - t.entryPrice) * t.quantity) q1 sym τ1
    hstate hpend hblk hp1
  have hred1 := processLong_buy_nostop st sym q1 τ1 t θ hpt hsym hfsm hth h1
  rw [hcheck1] at hred1
  have hred2 := processLong_buy_nostop (processLongTickTransition st sym q1 τ1).1 sym q2 τ2
    { t with currentPrice := q1, unrealizedPnl := (q1 - t.entryPrice) * t.quantity } θ
    (by rw [hred1]) hsym (by rw [hred1]; exact hfsm) (by rw [hred1]; exact hth) h2
  have hcheck2 := checkLiveTrade_steady .LONG
    (processLongTickTransition st sym q1 τ1).1.liveState
    { symbol := sym, entryPrice := q1, quantity := p.quantity, lot := p.lot }
    ((processLongTickTransition st sym q1 τ1).1.liveState.cumulativePnl
      + (q2 - t.entryPrice) * t.quantity) q2 sym τ2
    (by rw [hred1]) (by rw [hred1]) (by rw [hred1]) (by rw [hred1]; exact hp2)
  rw [hcheck2] at hred2
  refine ⟨by rw [hred1], by rw [hred1], by rw [hred1], by rw [hred2], ?_, ?_⟩
  · rw [hred2]
  · rw [hred2]

/-- C5: on any tick for the open paper trade where the live sub-track holds
a position and totalPnl (cumulative live PnL plus paper unrealized PnL at
the tick price) is at or below the close threshold, exactly one live EXIT is
emitted with reason Protective, the open live trade is closed at the tick
price into an EXIT ledger row, the live sub-track returns to NO_POSITION
with no open trade, and blockedAtMs is set to the tick timestamp. -/
theorem c5_protective_close_once (st : TrackState) (sym : String) (ltp : ℚ) (now : ℕ)
    (t : PaperTrade) (ot : LiveOpenTrade)
    (hpt : st.paperTrade = some t) (hsym : t.symbol = sym)
    (hstate : st.liveState.state = .POSITION)
    (hot : st.liveState.openTrade = some ot)
    (hpnl : st.liveState.cumulativePnl + (ltp - t.entryPrice) * t.quantity ≤ 0) :
    (processLongTickTransition st sym ltp now).2
      = [{ kind := .EXIT, symbol := ot.symbol, refPrice := ltp, direction := .LONG,
           reason := some "Protective" }]
    ∧ (processLongTickTransition st sym ltp now).1.liveState.blockedAtMs = some now
    ∧ (processLongTickTransition st sym ltp now).1.liveState.openTrade = none
    ∧ (processLongTickTransition st sym ltp now).1.liveState.state = .NO_POSITION
    ∧ (processLongTickTransition st sym ltp now).1.liveState.trades.head?
        = some { symbol := ot.symbol, action := .EXIT, entryPrice := ot.entryPrice,
                 exitPrice := some ltp, quantity := ot.quantity,
                 realizedPnl := some ((ltp - ot.entryPrice) * ot.quantity * ot.lot),
                 cumulativePnl := st.liveState.cumulativePnl
                   + (ltp - ot.entryPrice) * ot.quantity * ot.lot,
                 closedAt := some now } := by
  have hcheck := checkLiveTrade_protective .LONG st.liveState ot
    (st.liveState.cumulativePnl + (ltp - t.entryPrice) * t.quantity) ltp sym now
    hstate hot hpnl
  dsimp only at hcheck
  unfold processLongTickTransition
  dsimp only
  rw [longSafety_open st t hpt, longPaperUpdate_open st sym ltp now t hpt hsym]
  dsimp only
  rw [hcheck]
  dsimp only
  rcases hthr : st.threshold with _ | θ
  · exact ⟨rfl, rfl, rfl, rfl, rfl⟩
  · dsimp only
    obtain ⟨ho, hs, hb, htr, he⟩ :=
      longFsmStep_live_noop
        { fsmState := st.fsmState
          threshold := some θ
          paperTrade := some { t with currentPrice := ltp,
                                      unrealizedPnl := (ltp - t.entryPrice) * t.quantity }
          paperTrades := st.paperTrades
          peakPnlHistory := st.peakPnlHistory
          currentPeakPnl := updatedPeak st.currentPeakPnl ((ltp - t.entryPrice) * t.quantity)
          signals := st.signals
          lastSignalAtMs := st.lastSignalAtMs
          lastBlockedAtMs := st.lastBlockedAtMs
          liveState := { state := .NO_POSITION
                         cumulativePnl := st.liveState.cumulativePnl +
                           (ltp - ot.entryPrice) * ot.quantity * ot.lot
                         unrealizedPnl := 0
                         blockedAtMs := some now
                         openTrade := none
                         pendingPaperTrade := st.liveState.pendingPaperTrade
                         trades := (({ symbol := ot.symbol,
                                       action := .EXIT,
                                       entryPrice := ot.entryPrice,
                                       exitPrice := some ltp,
                                       quantity := ot.quantity,
                                       realizedPnl := some
                                         ((ltp - ot.entryPrice) * ot.quantity * ot.lot),
                                       cumulativePnl := st.liveState.cumulativePnl +
                                         (ltp - ot.entryPrice) * ot.quantity * ot.lot,
                                       closedAt := some now } : LiveTradeRow)
                           :: st.liveState.trades).take 50 } }
        θ sym ltp now rfl
    refine ⟨?_, ?_, ?_, ?_, ?_⟩
    · rw [he]
      simp
    · rw [hb]
    · exact ho
    · rw [hs]
    · rw [htr]
      rfl

/-- C10: closing a paper trade (with no live trade open) adds its realized
PnL into the live cumulative PnL of that track, and the totalPnl driving
live promotion and protective close is exactly this cumulative figure plus
the paper unrealized PnL: on a non-stop tick a flat, unblocked live
sub-track with a pending trade promotes iff cumulativePnl plus paper
unrealized PnL is positive, and a held live trade is protectively closed iff
that same sum is at or below zero. -/
theorem c10_realized_paper_pnl_feeds_live :
    (∀ (dir : Direction) (st : TrackState) (x : ℚ) (r : String) (n : ℕ) (t : PaperTrade),
      st.paperTrade = some t → st.liveState.openTrade = none →
      (closePaperTrade dir st x r n).1.liveState.cumulativePnl
        = st.liveState.cumulativePnl +
          (match dir with
           | .LONG => (x - t.entryPrice) * t.quantity
           | .SHORT => (t.entryPrice - x) * t.quantity))
    ∧ (∀ (st : TrackState) (sym : String) (ltp : ℚ) (now : ℕ) (t : PaperTrade)
        (p : PendingPaperTrade) (θ : ℚ),
      st.paperTrade = some t → t.symbol = sym → st.fsmState = .BUYPOSITION →
      st.threshold = some θ → θ ≤ ltp →
      st.liveState.state = .NO_POSITION → st.liveState.pendingPaperTrade = some p →
      st.liveState.blockedAtMs = none → st.liveState.openTrade = none →
      ((processLongTickTransition st sym ltp now).1.liveState.openTrade ≠ none
        ↔ 0 < st.liveState.cumulativePnl + (ltp - t.entryPrice) * t.quantity))
    ∧ (∀ (st : TrackState) (sym : String) (ltp : ℚ) (now : ℕ) (t : PaperTrade)
        (ot : LiveOpenTrade) (θ : ℚ),
      st.paperTrade = some t → t.symbol = sym → st.fsmState = .BUYPOSITION →
      st.threshold = some θ → θ ≤ ltp →
      st.liveState.state = .POSITION → st.liveState.openTrade = some ot →
      st.liveState.blockedAtMs = none →
      ((processLongTickTransition st sym ltp now).1.liveState.openTrade = none
        ↔ st.liveState.cumulativePnl + (ltp - t.entryPrice) * t.quantity ≤ 0)) := by
  refine ⟨?_, ?_, ?_⟩
  · intro dir st x r n t hpt hot
    unfold closePaperTrade
    rw [hpt]
    dsimp only
    rw [if_neg (by simp [hot])]
  · intro st sym ltp now t p θ hpt hsym hfsm hth hno hstate hpend hblk hot
    have hred := processLong_buy_nostop st sym ltp now t θ hpt hsym hfsm hth hno
    rw [hred]
    by_cases hpos : 0 < st.liveState.cumulativePnl + (ltp - t.entryPrice) * t.quantity
    · rw [checkLiveTrade_activate .LONG st.liveState p _ ltp sym now
        hstate hpend hblk hpos]
      simp [hpos]
    · rw [checkLiveTrade_idle .LONG st.liveState _ ltp sym now hstate hot
        (not_lt.mp hpos), clearExpiredLiveBlock_none st.liveState now hblk]
      simp [hot, hpos]
  · intro st sym ltp now t ot θ hpt hsym hfsm hth hno hstate hot hblk
    have hred := processLong_buy_nostop st sym ltp now t θ hpt hsym hfsm hth hno
    rw [hred]
    by_cases hneg : st.liveState.cumulativePnl + (ltp - t.entryPrice) * t.quantity ≤ 0
    · rw [checkLiveTrade_protective .LONG st.liveState ot _ ltp sym now
        hstate hot hneg]
      simp [hneg]
    · rw [checkLiveTrade_steady .LONG st.liveState ot _ ltp sym now
        hstate hot hblk (not_le.mp hneg)]
      simp [hot, hneg]

/-- C4 (witness): on the concrete open-trade track, the tick to 102 (paper
entry 101, threshold 100) promotes the paper trade and emits exactly one
ENTRY call. -/
theorem c4_promotion_exactly_once_witness :
    (processLongTickTransition openLongTrack "BTCUSDT" 102 9).2
      = [{ kind := .ENTRY, symbol := "BTCUSDT", refPrice := 102, direction := .LONG,
           reason := none }] :=
  (c4_promotion_exactly_once openLongTrack "BTCUSDT" 102 103 9 10 _ _ 100
    rfl rfl rfl rfl rfl rfl rfl (by norm_num) (by norm_num)
    (by norm_num [openLongTrack, initialTrack, createLiveState])
    (by norm_num [openLongTrack, initialTrack, createLiveState])).1

/-- C5 (witness): with a live trade open and the tick to 99 driving totalPnl
to -2, exactly one EXIT call with reason Protective is emitted. -/
theorem c5_protective_close_once_witness :
    (processLongTickTransition c5Track "BTCUSDT" 99 8).2
      = [{ kind := .EXIT, symbol := "BTCUSDT", refPrice := 99, direction := .LONG,
           reason := some "Protective" }] :=
  (c5_protective_close_once c5Track "BTCUSDT" 99 8 _ liveOpenBtc rfl rfl rfl rfl
    (by norm_num [c5Track, openLongTrack, initialTrack, createLiveState])).1

/-- C10 (witness): closing the concrete open paper trade at 99 books its -2
realized PnL into the live cumulative PnL, and a tick to 102 promotes since
cumulative plus unrealized PnL is positive. -/
theorem c10_realized_paper_pnl_feeds_live_witness :
    (closePaperTrade .LONG openLongTrack 99 "Stop Loss" 7).1.liveState.cumulativePnl = -2
    ∧ (processLongTickTransition openLongTrack "BTCUSDT" 102 9).1.liveState.openTrade
        ≠ none := by
  constructor
  · have h := c10_realized_paper_pnl_feeds_live.1 .LONG openLongTrack 99 "Stop Loss" 7 _
      rfl rfl
    rw [h]
    norm_num [openLongTrack, initialTrack, createLiveState]
  · exact (c10_realized_paper_pnl_feeds_live.2.1 openLongTrack "BTCUSDT" 102 9 _ _ 100
      rfl rfl rfl rfl (by norm_num) rfl rfl rfl rfl).mpr
      (by norm_num [openLongTrack, initialTrack, createLiveState])

end Server
